import Mathlib

/-!
Shallow embedding of the per-frame vessel-state update and camera-mode
logic of the 3D oil-tanker simulation (`src/main.js`, function
`updatePhysics`, together with the physics constants `shipStats` and the
input-flag record `keys`).

Numbers are modelled as exact rationals (`ℚ`); the JavaScript source
performs the same arithmetic on IEEE doubles.  Vectors are triples of
rationals.  The scene-graph quantities that the source obtains from
`shipGroup.matrixWorld` (the world-frame forward axis and the two
matrix-transformed camera offsets) are taken as per-frame oracle inputs
in `FrameEnv`, since their computation lives inside the rendering
engine, not in this repository's code.
-/

namespace Tanker

/-- The four directional input flags (`keys` in `main.js`). -/
structure Keys where
  forward : Bool
  backward : Bool
  left : Bool
  right : Bool
  deriving DecidableEq, Repr

/-- `shipStats.maxSpeed = 2.0`. -/
def maxSpeed : ℚ := 2

/-- `shipStats.acceleration = 0.02`. -/
def acceleration : ℚ := 1/50

/-- `shipStats.deceleration = 0.01`. -/
def deceleration : ℚ := 1/100

/-- `shipStats.maxRotationSpeed = 0.02`. -/
def maxRotationSpeed : ℚ := 1/50

/-- `shipStats.rotationAcceleration = 0.0005`. -/
def rotationAcceleration : ℚ := 1/2000

/-- `shipStats.rotationDeceleration = 0.0005`. -/
def rotationDeceleration : ℚ := 1/2000

/-- `shipStats.rotationDamping = 0.95`. -/
def rotationDamping : ℚ := 19/20

/-- Line 310 of `main.js`:
`speed = Math.max(Math.min(speed, maxSpeed), -maxSpeed / 2)`. -/
def clampSpeed (x : ℚ) : ℚ := max (min x maxSpeed) (-(maxSpeed / 2))

/-- Line 337 of `main.js`:
`rotationSpeed = Math.max(Math.min(rotationSpeed, maxRotationSpeed), -maxRotationSpeed)`. -/
def clampRot (x : ℚ) : ℚ := max (min x maxRotationSpeed) (-maxRotationSpeed)

/-- Lines 300-307 of `main.js`, the no-thrust branch: the two sequential
drag conditionals (each reading the value mutated by the previous one)
followed by the snap-to-zero test. -/
def dragSnap (s : ℚ) : ℚ :=
  let s1 := if 0 < s then s - deceleration else s
  let s2 := if s1 < 0 then s1 + deceleration else s1
  if |s2| < deceleration then 0 else s2

/-- Lines 296-310 of `main.js`: longitudinal update — forward thrust,
else reverse thrust, else drag; then the speed clamp. -/
def stepSpeed (k : Keys) (s : ℚ) : ℚ :=
  clampSpeed
    (if k.forward then s + acceleration
     else if k.backward then s - acceleration
     else dragSnap s)

/-- Line 317-318 of `main.js`:
`turnInfluence = Math.max(Math.abs(speed) / maxSpeed, 0.1)`. -/
def turnInfluence (s : ℚ) : ℚ := max (|s| / maxSpeed) (1/10)

/-- Line 319 of `main.js`: `direction = speed >= 0 ? 1 : -1`. -/
def turnDirection (s : ℚ) : ℚ := if 0 ≤ s then 1 else -1

/-- Lines 326-333 of `main.js`, the no-turn-key branch: two sequential
drift conditionals, multiplicative damping, and the snap-to-zero test. -/
def yawDrift (r : ℚ) : ℚ :=
  let r1 := if 0 < r then r - rotationDeceleration else r
  let r2 := if r1 < 0 then r1 + rotationDeceleration else r1
  let r3 := r2 * rotationDamping
  if |r3| < 1/10000 then 0 else r3

/-- Lines 312-337 of `main.js`: yaw-rate update — left key, else right
key, else drift/damping; then the yaw-rate clamp.  `s` is the speed
already updated by `stepSpeed` this frame. -/
def stepRotation (k : Keys) (s r : ℚ) : ℚ :=
  clampRot
    (if k.left then r + rotationAcceleration * turnInfluence s * turnDirection s
     else if k.right then r - rotationAcceleration * turnInfluence s * turnDirection s
     else yawDrift r)

/-- 3-component vectors (`THREE.Vector3`), componentwise rationals. -/
abbrev Vec3 : Type := ℚ × ℚ × ℚ

/-- `THREE.Vector3.lerp` / `lerpVectors`: `a + (b - a) * t` componentwise. -/
def vlerp (a b : Vec3) (t : ℚ) : Vec3 :=
  (a.1 + (b.1 - a.1) * t, a.2.1 + (b.2.1 - a.2.1) * t, a.2.2 + (b.2.2 - a.2.2) * t)

/-- Componentwise vector addition. -/
def vadd (a b : Vec3) : Vec3 := (a.1 + b.1, a.2.1 + b.2.1, a.2.2 + b.2.2)

/-- Scalar multiple of a vector. -/
def vsmul (c : ℚ) (a : Vec3) : Vec3 := (c * a.1, c * a.2.1, c * a.2.2)

/-- `THREE.MathUtils.lerp(x, y, t) = (1 - t) * x + t * y`. -/
def mathLerp (x y t : ℚ) : ℚ := (1 - t) * x + t * y

/-- The camera-controller state: the window-attached transition
variables of `main.js` (lines 355-359) together with the camera
position and the orbit-controls flags the controller writes. -/
structure CamState where
  wasFollowMode : Bool
  isTransitioning : Bool
  transitionStartTime : ℚ
  transitionStartPos : Vec3
  transitionTargetPos : Vec3
  cameraPos : Vec3
  controlsEnabled : Bool
  controlsTarget : Vec3
  deriving DecidableEq, Repr

/-- Lines 361-411 of `main.js`: the camera-mode state machine.
`isFollowMode` is the camera-toggle checkbox, `now` is
`performance.now()`, `shipPos` is `shipGroup.position` (already moved
this frame), `followOffsetWorld` is `(0,30,80)` through
`shipGroup.matrixWorld`, and `freeTargetWorld` is `(0,60,150)` through
`shipGroup.matrixWorld`. -/
def updateCamera (isFollowMode : Bool) (now : ℚ)
    (shipPos followOffsetWorld freeTargetWorld : Vec3) (c : CamState) : CamState :=
  if isFollowMode then
    { c with isTransitioning := false
             wasFollowMode := true
             controlsEnabled := false
             cameraPos := vlerp c.cameraPos followOffsetWorld (1/20) }
  else
    let c1 :=
      if c.wasFollowMode then
        { c with wasFollowMode := false
                 isTransitioning := true
                 transitionStartTime := now
                 transitionStartPos := c.cameraPos
                 transitionTargetPos := freeTargetWorld }
      else c
    if c1.isTransitioning then
      let elapsed := now - c1.transitionStartTime
      let progress := min (elapsed / 1500) 1
      let ease := 1 - (1 - progress) ^ 3
      let c2 := { c1 with cameraPos := vlerp c1.transitionStartPos c1.transitionTargetPos ease }
      if 1 ≤ progress then
        { c2 with isTransitioning := false
                  controlsTarget := shipPos }
      else c2
    else
      { c1 with controlsEnabled := true }

/-- The IEEE-754 double value of JavaScript's `Math.PI`, as an exact
rational: `7074237752028440 / 2^51`. -/
def mathPI : ℚ := 884279719003555 / 281474976710656

/-- JavaScript's `%` remainder for a nonnegative dividend and positive
divisor (truncated division coincides with floored division there). -/
def jsMod (x y : ℚ) : ℚ := x - y * ⌊x / y⌋

/-- `Number.prototype.toFixed(digits)` on a nonnegative value, modelled
as the rounded numeric value (round half away from zero, which is round
half up for nonnegative inputs) rather than its decimal string. -/
def toFixed (digits : ℕ) (x : ℚ) : ℚ := (⌊x * 10 ^ digits + 1/2⌋ : ℚ) / 10 ^ digits

/-- The whole simulation state touched by `updatePhysics`: the ship
kinematics scalars, the ship transform, the camera controller, the
water-shader clock, and the two numeric UI readouts. `shipLoaded`
records whether the GLTF callback has assigned `ship`. -/
structure SimState where
  shipLoaded : Bool
  speed : ℚ
  rotationSpeed : ℚ
  shipYaw : ℚ
  shipPos : Vec3
  shipRoll : ℚ
  cam : CamState
  waterTime : ℚ
  speedReadout : ℚ
  headingReadout : ℚ
  deriving DecidableEq, Repr

/-- Per-frame inputs to `updatePhysics` that the source reads from the
DOM, the clock, or the scene graph: the key flags, the camera-toggle
checkbox, `performance.now()`, and the three `matrixWorld`-derived
vectors (the ship's world-frame forward axis used by `translateZ`, and
the two camera offsets). -/
structure FrameEnv where
  keys : Keys
  isFollowMode : Bool
  now : ℚ
  forwardDir : Vec3
  followOffsetWorld : Vec3
  freeTargetWorld : Vec3
  deriving DecidableEq, Repr

/-- Lines 292-431 of `main.js`: one call of `updatePhysics`.  Returns
the state unchanged while the ship asset has not loaded (line 293);
otherwise updates speed, yaw rate, yaw, position (`translateZ(-speed)`
along the world-frame forward axis), roll (lerp toward
`rotationSpeed * 10` with factor `0.05`), the camera controller, the
water clock, and the two readouts. -/
def updatePhysics (env : FrameEnv) (st : SimState) : SimState :=
  if st.shipLoaded = false then st
  else
    let speed := stepSpeed env.keys st.speed
    let rot := stepRotation env.keys speed st.rotationSpeed
    let yaw := st.shipYaw + rot
    let pos := vadd st.shipPos (vsmul (-speed) env.forwardDir)
    let roll := mathLerp st.shipRoll (rot * 10) (1/20)
    let cam := updateCamera env.isFollowMode env.now pos
                 env.followOffsetWorld env.freeTargetWorld st.cam
    { shipLoaded := st.shipLoaded
      speed := speed
      rotationSpeed := rot
      shipYaw := yaw
      shipPos := pos
      shipRoll := roll
      cam := cam
      waterTime := st.waterTime + 1/60
      speedReadout := toFixed 1 (|speed| * 100)
      headingReadout := toFixed 0 (jsMod |yaw * (180 / mathPI)| 360) }

/-- A run of the simulation: fold `updatePhysics` over a list of
per-frame environments. -/
def runSim (es : List FrameEnv) (st : SimState) : SimState :=
  es.foldl (fun s e => updatePhysics e s) st

/-- The trajectory of the simulation under a stream of per-frame
environments: `simTraj envs st n` is the state after `n` frames. -/
def simTraj (envs : ℕ → FrameEnv) (st : SimState) : ℕ → SimState
  | 0 => st
  | n + 1 => updatePhysics (envs n) (simTraj envs st n)

/-! ### Concrete states used to instantiate the theorems -/

/-- No directional key held. -/
def keysNone : Keys := ⟨false, false, false, false⟩

/-- Only the left key held. -/
def keysLeft : Keys := ⟨false, false, true, false⟩

/-- The camera state at page load: follow mode, no transition pending,
camera at `(30, 30, 100)`, orbit target `(0, 10, 0)`. -/
def cam0 : CamState := ⟨true, false, 0, (0, 0, 0), (0, 0, 0), (30, 30, 100), true, (0, 10, 0)⟩

/-- A mid-transition camera state: the latch cleared, transition
running from the origin toward `(1, 2, 3)` since time `0`. -/
def camT : CamState := ⟨false, true, 0, (0, 0, 0), (1, 2, 3), (5, 5, 5), true, (0, 0, 0)⟩

/-- A quiescent frame environment: no keys, follow mode, time `0`. -/
def env0 : FrameEnv := ⟨keysNone, true, 0, (0, 0, 1), (0, 30, 80), (0, 60, 150)⟩

/-- The simulation state right after the asset loads: everything at
rest. -/
def st0 : SimState := ⟨true, 0, 0, 0, (0, 0, 0), 0, cam0, 0, 0, 0⟩

/-- A moving, loaded state with unit speed. -/
def stMoving : SimState := ⟨true, 1, 0, 0, (0, 0, 0), 0, cam0, 0, 0, 0⟩

/-- A state in which the vessel asset has not loaded yet. -/
def stUnloaded : SimState := ⟨false, 1, 1, 0, (0, 0, 0), 0, cam0, 0, 0, 0⟩

/-! ### Helper lemmas on the kinematics primitives -/

/-- Closed form of the drag-and-snap branch: move toward zero by one
`deceleration` step outside `[-2·decel, 2·decel]`, snap to `0` inside. -/
lemma dragSnap_eq (s : ℚ) :
    dragSnap s =
      if 2 * deceleration ≤ s then s - deceleration
      else if s ≤ -(2 * deceleration) then s + deceleration
      else 0 := by
  simp only [dragSnap, deceleration]
  rcases le_or_lt (2 * (1/100)) s with h2 | h2
  · rw [if_pos (by linarith : (0:ℚ) < s),
      if_neg (by linarith : ¬(s - 1/100 < (0:ℚ))),
      abs_of_nonneg (by linarith : (0:ℚ) ≤ s - 1/100),
      if_neg (by linarith : ¬(s - 1/100 < (1/100:ℚ))), if_pos h2]
  · rcases le_or_lt s (-(2 * (1/100))) with h3 | h3
    · rw [if_neg (by linarith : ¬(0:ℚ) < s), if_pos (by linarith : s < (0:ℚ)),
        abs_of_nonpos (by linarith : s + 1/100 ≤ (0:ℚ)),
        if_neg (by linarith : ¬(-(s + 1/100) < (1/100:ℚ))),
        if_neg (by linarith : ¬(2 * (1/100) ≤ s)), if_pos h3]
    · rcases lt_trichotomy 0 s with hs | hs | hs
      · rw [if_pos hs]
        rcases lt_or_le s (1/100) with hsd | hsd
        · rw [if_pos (by linarith : s - 1/100 < (0:ℚ))]
          have e : s - 1/100 + 1/100 = s := by ring
          rw [e, if_pos (by rw [abs_of_pos hs]; linarith),
            if_neg (by linarith : ¬(2 * (1/100) ≤ s)),
            if_neg (by linarith : ¬(s ≤ -(2 * (1/100))))]
        · rw [if_neg (by linarith : ¬(s - 1/100 < (0:ℚ))),
            abs_of_nonneg (by linarith : (0:ℚ) ≤ s - 1/100),
            if_pos (by linarith : s - 1/100 < (1/100:ℚ)),
            if_neg (by linarith : ¬(2 * (1/100) ≤ s)),
            if_neg (by linarith : ¬(s ≤ -(2 * (1/100))))]
      · subst hs
        norm_num
      · rw [if_neg (by linarith : ¬(0:ℚ) < s), if_pos hs,
          if_pos (by rw [abs_lt]; constructor <;> linarith),
          if_neg (by linarith : ¬(2 * (1/100) ≤ s)),
          if_neg (by linarith : ¬(s ≤ -(2 * (1/100))))]

/-- Drag on a stopped vessel does nothing. -/
lemma dragSnap_zero : dragSnap 0 = 0 := by
  rw [dragSnap_eq]
  norm_num [deceleration]

/-- One drag step either lands exactly on zero or shrinks the speed
magnitude by a full `deceleration`. -/
lemma dragSnap_decay (s : ℚ) : dragSnap s = 0 ∨ |dragSnap s| ≤ |s| - deceleration := by
  rw [dragSnap_eq]
  simp only [deceleration]
  split_ifs with h1 h2
  · right
    rw [abs_of_nonneg (by linarith : (0:ℚ) ≤ s - 1/100),
      abs_of_nonneg (by linarith : (0:ℚ) ≤ s)]
  · right
    rw [abs_of_nonpos (by linarith : s + 1/100 ≤ (0:ℚ)),
      abs_of_nonpos (by linarith : s ≤ (0:ℚ))]
    linarith
  · left; rfl

/-- Drag never flips the sign of the speed. -/
lemma dragSnap_sign (s : ℚ) : (0 ≤ s → 0 ≤ dragSnap s) ∧ (s ≤ 0 → dragSnap s ≤ 0) := by
  rw [dragSnap_eq]
  simp only [deceleration]
  split_ifs with h1 h2 <;> constructor <;> intro h <;> linarith

/-- The speed clamp lands in `[-maxSpeed/2, maxSpeed]`. -/
lemma clampSpeed_mem (x : ℚ) :
    -(maxSpeed / 2) ≤ clampSpeed x ∧ clampSpeed x ≤ maxSpeed := by
  unfold clampSpeed maxSpeed
  exact ⟨le_max_right _ _, max_le (min_le_right _ _) (by norm_num)⟩

/-- The yaw-rate clamp lands in `[-maxRotationSpeed, maxRotationSpeed]`. -/
lemma clampRot_mem (x : ℚ) :
    -maxRotationSpeed ≤ clampRot x ∧ clampRot x ≤ maxRotationSpeed := by
  unfold clampRot maxRotationSpeed
  exact ⟨le_max_right _ _, max_le (min_le_right _ _) (by norm_num)⟩

/-- Clamping never increases the speed magnitude. -/
lemma abs_clampSpeed_le (x : ℚ) : |clampSpeed x| ≤ |x| := by
  unfold clampSpeed maxSpeed
  rcases le_total 0 x with hx | hx
  · rw [max_eq_left (le_min (by linarith) (by norm_num)),
      abs_of_nonneg hx, abs_of_nonneg (le_min hx (by norm_num))]
    exact min_le_left _ _
  · rw [min_eq_left (by linarith), abs_of_nonpos hx,
      abs_of_nonpos (max_le hx (by norm_num))]
    exact neg_le_neg (le_max_left _ _)

/-- Clamping keeps nonnegative speeds nonnegative. -/
lemma clampSpeed_nonneg {x : ℚ} (h : 0 ≤ x) : 0 ≤ clampSpeed x :=
  le_trans (le_min h (by norm_num [maxSpeed])) (le_max_left _ _)

/-- Clamping keeps nonpositive speeds nonpositive. -/
lemma clampSpeed_nonpos {x : ℚ} (h : x ≤ 0) : clampSpeed x ≤ 0 :=
  max_le (le_trans (min_le_left _ _) h) (by norm_num [maxSpeed])

/-- Clamping a zero speed gives zero. -/
lemma clampSpeed_zero : clampSpeed 0 = 0 := by
  norm_num [clampSpeed, maxSpeed]

/-- With neither thrust flag set, the longitudinal update is drag
followed by the clamp. -/
lemma stepSpeed_noThrust {k : Keys} (hf : k.forward = false) (hb : k.backward = false)
    (s : ℚ) : stepSpeed k s = clampSpeed (dragSnap s) := by
  simp [stepSpeed, hf, hb]

/-- A stopped vessel with no thrust stays stopped. -/
lemma stepSpeed_zero {k : Keys} (hf : k.forward = false) (hb : k.backward = false) :
    stepSpeed k 0 = 0 := by
  rw [stepSpeed_noThrust hf hb, dragSnap_zero, clampSpeed_zero]

/-- A no-thrust frame either stops the vessel or shrinks the speed
magnitude by a full `deceleration`. -/
lemma stepSpeed_decay {k : Keys} (hf : k.forward = false) (hb : k.backward = false)
    (s : ℚ) : stepSpeed k s = 0 ∨ |stepSpeed k s| ≤ |s| - deceleration := by
  rw [stepSpeed_noThrust hf hb]
  rcases dragSnap_decay s with h | h
  · left; rw [h, clampSpeed_zero]
  · right; exact le_trans (abs_clampSpeed_le _) h

/-- A no-thrust frame never flips the sign of the speed. -/
lemma stepSpeed_sign {k : Keys} (hf : k.forward = false) (hb : k.backward = false)
    (s : ℚ) : (0 ≤ s → 0 ≤ stepSpeed k s) ∧ (s ≤ 0 → stepSpeed k s ≤ 0) := by
  rw [stepSpeed_noThrust hf hb]
  exact ⟨fun h => clampSpeed_nonneg ((dragSnap_sign s).1 h),
    fun h => clampSpeed_nonpos ((dragSnap_sign s).2 h)⟩

/-- The longitudinal update always lands in `[-maxSpeed/2, maxSpeed]`. -/
lemma stepSpeed_mem (k : Keys) (s : ℚ) :
    -(maxSpeed / 2) ≤ stepSpeed k s ∧ stepSpeed k s ≤ maxSpeed :=
  clampSpeed_mem _

/-- The yaw-rate update always lands in
`[-maxRotationSpeed, maxRotationSpeed]`. -/
lemma stepRotation_mem (k : Keys) (s r : ℚ) :
    -maxRotationSpeed ≤ stepRotation k s r ∧ stepRotation k s r ≤ maxRotationSpeed :=
  clampRot_mem _

/-- Interpolating all the way reaches the target exactly. -/
lemma vlerp_one (a b : Vec3) : vlerp a b 1 = b := by
  obtain ⟨a1, a2, a3⟩ := a
  obtain ⟨b1, b2, b3⟩ := b
  simp only [vlerp, Prod.mk.injEq]
  refine ⟨by ring, by ring, by ring⟩

/-- Rounding a nonnegative value is nonnegative. -/
lemma toFixed_nonneg (d : ℕ) (x : ℚ) (hx : 0 ≤ x) : 0 ≤ toFixed d x := by
  unfold toFixed
  apply div_nonneg _ (by positivity)
  have h0 : (0:ℤ) ≤ ⌊x * 10 ^ d + 1/2⌋ :=
    Int.le_floor.mpr (by push_cast; positivity)
  exact_mod_cast h0

/-! ### Helper lemmas on the per-frame update and its iterates -/

/-- The update never changes whether the asset is loaded. -/
lemma updatePhysics_shipLoaded (env : FrameEnv) (st : SimState) :
    (updatePhysics env st).shipLoaded = st.shipLoaded := by
  unfold updatePhysics
  split <;> rfl

/-- On a loaded state the update's speed is `stepSpeed`. -/
lemma updatePhysics_speed {st : SimState} (h : st.shipLoaded = true) (env : FrameEnv) :
    (updatePhysics env st).speed = stepSpeed env.keys st.speed := by
  unfold updatePhysics
  rw [if_neg (by simp [h])]

/-- On a loaded state the update's yaw rate is `stepRotation` at the
already-updated speed. -/
lemma updatePhysics_rot {st : SimState} (h : st.shipLoaded = true) (env : FrameEnv) :
    (updatePhysics env st).rotationSpeed =
      stepRotation env.keys (stepSpeed env.keys st.speed) st.rotationSpeed := by
  unfold updatePhysics
  rw [if_neg (by simp [h])]

/-- Loadedness propagates along the trajectory. -/
lemma simTraj_loaded (envs : ℕ → FrameEnv) (st : SimState) (h : st.shipLoaded = true) :
    ∀ n, (simTraj envs st n).shipLoaded = true := by
  intro n
  induction n with
  | zero => exact h
  | succ n ih =>
    show (updatePhysics (envs n) (simTraj envs st n)).shipLoaded = true
    rw [updatePhysics_shipLoaded]
    exact ih

/-- The speed recurrence along a loaded trajectory. -/
lemma simTraj_speed_succ (envs : ℕ → FrameEnv) (st : SimState)
    (h : st.shipLoaded = true) (n : ℕ) :
    (simTraj envs st (n + 1)).speed =
      stepSpeed (envs n).keys (simTraj envs st n).speed := by
  show (updatePhysics (envs n) (simTraj envs st n)).speed = _
  exact updatePhysics_speed (simTraj_loaded envs st h n) (envs n)

/-- One frame keeps the speed inside its clamp range. -/
lemma updatePhysics_speed_bounds (env : FrameEnv) (st : SimState)
    (h : -(maxSpeed / 2) ≤ st.speed ∧ st.speed ≤ maxSpeed) :
    -(maxSpeed / 2) ≤ (updatePhysics env st).speed ∧
      (updatePhysics env st).speed ≤ maxSpeed := by
  unfold updatePhysics
  split
  · exact h
  · exact stepSpeed_mem _ _

/-- One frame keeps the yaw rate inside its clamp range. -/
lemma updatePhysics_rot_bounds (env : FrameEnv) (st : SimState)
    (h : -maxRotationSpeed ≤ st.rotationSpeed ∧ st.rotationSpeed ≤ maxRotationSpeed) :
    -maxRotationSpeed ≤ (updatePhysics env st).rotationSpeed ∧
      (updatePhysics env st).rotationSpeed ≤ maxRotationSpeed := by
  unfold updatePhysics
  split
  · exact h
  · exact stepRotation_mem _ _ _

/-- Any run from an in-range speed stays in range. -/
lemma runSim_speed_bounds (es : List FrameEnv) :
    ∀ st : SimState, -(maxSpeed / 2) ≤ st.speed ∧ st.speed ≤ maxSpeed →
      -(maxSpeed / 2) ≤ (runSim es st).speed ∧ (runSim es st).speed ≤ maxSpeed := by
  induction es with
  | nil => exact fun st h => h
  | cons e es ih => exact fun st h => ih _ (updatePhysics_speed_bounds e st h)

/-- Any run from an in-range yaw rate stays in range. -/
lemma runSim_rot_bounds (es : List FrameEnv) :
    ∀ st : SimState,
      -maxRotationSpeed ≤ st.rotationSpeed ∧ st.rotationSpeed ≤ maxRotationSpeed →
      -maxRotationSpeed ≤ (runSim es st).rotationSpeed ∧
        (runSim es st).rotationSpeed ≤ maxRotationSpeed := by
  induction es with
  | nil => exact fun st h => h
  | cons e es ih => exact fun st h => ih _ (updatePhysics_rot_bounds e st h)

/-! ### The claims -/

/-- C1: from any nonzero initial speed, over any run of frames in which
neither thrust flag is set (vessel loaded), the speed magnitude is
non-increasing frame to frame, the speed never crosses past zero to the
opposite sign, and it is exactly `0` from frame
`⌈|s0| / deceleration⌉` on. -/
theorem claim_C1_no_input_speed_decay (envs : ℕ → FrameEnv) (st : SimState)
    (hload : st.shipLoaded = true) (h0 : st.speed ≠ 0)
    (hk : ∀ n, (envs n).keys.forward = false ∧ (envs n).keys.backward = false) :
    (∀ n, |(simTraj envs st (n + 1)).speed| ≤ |(simTraj envs st n).speed|) ∧
    (∀ n, 0 ≤ st.speed → 0 ≤ (simTraj envs st n).speed) ∧
    (∀ n, st.speed ≤ 0 → (simTraj envs st n).speed ≤ 0) ∧
    (∀ n, ⌈|st.speed| / deceleration⌉₊ ≤ n → (simTraj envs st n).speed = 0) := by
  have hd : (0:ℚ) < deceleration := by norm_num [deceleration]
  have hsucc := simTraj_speed_succ envs st hload
  have hdecay : ∀ n, (simTraj envs st (n + 1)).speed = 0 ∨
      |(simTraj envs st (n + 1)).speed| ≤ |(simTraj envs st n).speed| - deceleration := by
    intro n
    rw [hsucc n]
    exact stepSpeed_decay (hk n).1 (hk n).2 _
  have hmono : ∀ n, |(simTraj envs st (n + 1)).speed| ≤ |(simTraj envs st n).speed| := by
    intro n
    rcases hdecay n with h | h
    · rw [h, abs_zero]
      exact abs_nonneg _
    · linarith
  have hbound : ∀ n, (simTraj envs st n).speed = 0 ∨
      |(simTraj envs st n).speed| ≤ |st.speed| - n * deceleration := by
    intro n
    induction n with
    | zero => right; simp [simTraj]
    | succ n ih =>
      rcases ih with h0 | hle
      · left
        rw [hsucc n, h0]
        exact stepSpeed_zero (hk n).1 (hk n).2
      · rcases hdecay n with h | h
        · left; exact h
        · right
          push_cast
          linarith
  refine ⟨hmono, ?_, ?_, ?_⟩
  · intro n h0
    induction n with
    | zero => exact h0
    | succ n ih =>
      rw [hsucc n]
      exact (stepSpeed_sign (hk n).1 (hk n).2 _).1 ih
  · intro n h0
    induction n with
    | zero => exact h0
    | succ n ih =>
      rw [hsucc n]
      exact (stepSpeed_sign (hk n).1 (hk n).2 _).2 ih
  · intro n hn
    rcases hbound n with h | h
    · exact h
    · have h1 : |st.speed| / deceleration ≤ (⌈|st.speed| / deceleration⌉₊ : ℚ) :=
        Nat.le_ceil _
      have h2 : ((⌈|st.speed| / deceleration⌉₊ : ℕ) : ℚ) ≤ (n : ℚ) := by
        exact_mod_cast hn
      rw [div_le_iff₀ hd] at h1
      have h3 : (⌈|st.speed| / deceleration⌉₊ : ℚ) * deceleration ≤ n * deceleration :=
        mul_le_mul_of_nonneg_right h2 (le_of_lt hd)
      exact abs_eq_zero.mp (le_antisymm (by linarith) (abs_nonneg _))

/-- C1 witness: a loaded vessel at speed `1` with no thrust flags held
reaches exactly speed `0` by frame `100 = ⌈1 / 0.01⌉`. -/
theorem claim_C1_no_input_speed_decay_witness :
    (stMoving.shipLoaded = true ∧ stMoving.speed ≠ 0 ∧
      ∀ n : ℕ, ((fun _ => env0) n).keys.forward = false ∧
        ((fun _ => env0) n).keys.backward = false) ∧
    (simTraj (fun _ => env0) stMoving 100).speed = 0 :=
  ⟨⟨rfl, by norm_num [stMoving], fun _ => ⟨rfl, rfl⟩⟩,
    (claim_C1_no_input_speed_decay (fun _ => env0) stMoving rfl
      (by norm_num [stMoving]) (fun _ => ⟨rfl, rfl⟩)).2.2.2 100
      (by rw [Nat.ceil_le]; show |(1:ℚ)| / deceleration ≤ _; norm_num [deceleration])⟩

/-- C2 counterexample: the source computes
`direction = speed >= 0 ? 1 : -1`, so the multiplier at speed `0` is
`1`, not `0`; with the left flag held at speed `0` the yaw rate
actually moves by `rotationAcceleration * 0.1`. -/
theorem claim_C2_counterexample :
    turnDirection 0 ≠ 0 ∧ turnDirection 0 = 1 ∧
    stepRotation keysLeft 0 0 = 1/20000 := by
  refine ⟨by decide, by decide, ?_⟩
  norm_num [stepRotation, keysLeft, turnInfluence, turnDirection, rotationAcceleration,
    maxSpeed, clampRot, maxRotationSpeed, min_def, max_def, abs_zero]

/-- C2 amended: the effective turn-direction multiplier is `+1` when
`speed ≥ 0` (including `speed = 0`) and `-1` when `speed < 0`, and with
the left flag held the yaw-rate update adds
`rotationAcceleration * turnInfluence * turnDirection` before
clamping. -/
theorem claim_C2_turn_direction_amended (s : ℚ) :
    (0 ≤ s → turnDirection s = 1) ∧ (s < 0 → turnDirection s = -1) ∧
    ∀ (r : ℚ) (f b rr : Bool),
      stepRotation ⟨f, b, true, rr⟩ s r =
        clampRot (r + rotationAcceleration * turnInfluence s * turnDirection s) := by
  refine ⟨fun h => by simp [turnDirection, h],
    fun h => by simp [turnDirection, not_le.mpr h], ?_⟩
  intro r f b rr
  rfl

/-- C2 amended, instantiated: multiplier `1` at speed `1`, `-1` at
speed `-1`, and the left-flag yaw update at speed `1`. -/
theorem claim_C2_turn_direction_amended_witness :
    turnDirection 1 = 1 ∧ turnDirection (-1) = -1 ∧
    stepRotation ⟨false, false, true, false⟩ 1 0 =
      clampRot (0 + rotationAcceleration * turnInfluence 1 * turnDirection 1) :=
  ⟨(claim_C2_turn_direction_amended 1).1 (by norm_num),
    (claim_C2_turn_direction_amended (-1)).2.1 (by norm_num),
    (claim_C2_turn_direction_amended 1).2.2 0 false false false⟩

/-- C3: over any sequence of per-frame inputs from initial speed `0`,
the speed after every completed update stays in
`[-maxSpeed/2, maxSpeed]`. -/
theorem claim_C3_speed_clamped (es : List FrameEnv) (st : SimState) (h : st.speed = 0) :
    -(maxSpeed / 2) ≤ (runSim es st).speed ∧ (runSim es st).speed ≤ maxSpeed :=
  runSim_speed_bounds es st (by rw [h]; constructor <;> norm_num [maxSpeed])

/-- C3 witness: one quiescent frame from the freshly loaded state. -/
theorem claim_C3_speed_clamped_witness :
    st0.speed = 0 ∧
    (-(maxSpeed / 2) ≤ (runSim [env0] st0).speed ∧ (runSim [env0] st0).speed ≤ maxSpeed) :=
  ⟨rfl, claim_C3_speed_clamped [env0] st0 rfl⟩

/-- C4: over any sequence of per-frame inputs from initial yaw rate
`0`, the yaw rate after every completed update stays in
`[-maxRotationSpeed, maxRotationSpeed]`. -/
theorem claim_C4_yaw_rate_clamped (es : List FrameEnv) (st : SimState)
    (h : st.rotationSpeed = 0) :
    -maxRotationSpeed ≤ (runSim es st).rotationSpeed ∧
      (runSim es st).rotationSpeed ≤ maxRotationSpeed :=
  runSim_rot_bounds es st (by rw [h]; constructor <;> norm_num [maxRotationSpeed])

/-- C4 witness: one quiescent frame from the freshly loaded state. -/
theorem claim_C4_yaw_rate_clamped_witness :
    st0.rotationSpeed = 0 ∧
    (-maxRotationSpeed ≤ (runSim [env0] st0).rotationSpeed ∧
      (runSim [env0] st0).rotationSpeed ≤ maxRotationSpeed) :=
  ⟨rfl, claim_C4_yaw_rate_clamped [env0] st0 rfl⟩

/-- C5: at speed `0` with the left flag held and yaw rate strictly
below the clamp, one frame strictly increases the yaw rate, and the
turn influence is bounded below by its `0.1` floor. -/
theorem claim_C5_turn_influence_floor (k : Keys) (r : ℚ) (hl : k.left = true)
    (hr : r < maxRotationSpeed) :
    r < stepRotation k 0 r ∧ (1/10 : ℚ) ≤ turnInfluence 0 := by
  constructor
  · have hti : turnInfluence 0 = 1/10 := by
      unfold turnInfluence maxSpeed
      rw [abs_zero]
      exact max_eq_right (by norm_num)
    have htd : turnDirection 0 = 1 := by
      unfold turnDirection
      norm_num
    have h1 : stepRotation k 0 r = clampRot (r + 1/20000) := by
      simp only [stepRotation, hl, if_true, hti, htd, rotationAcceleration]
      norm_num
    rw [h1]
    unfold clampRot
    unfold maxRotationSpeed at hr ⊢
    exact lt_of_lt_of_le (lt_min (by linarith) hr) (le_max_left _ _)
  · exact le_max_right _ _

/-- C5 witness: left flag held at speed `0`, yaw rate `0`. -/
theorem claim_C5_turn_influence_floor_witness :
    (keysLeft.left = true ∧ (0:ℚ) < maxRotationSpeed) ∧
    ((0:ℚ) < stepRotation keysLeft 0 0 ∧ (1/10 : ℚ) ≤ turnInfluence 0) :=
  ⟨⟨rfl, by norm_num [maxRotationSpeed]⟩,
    claim_C5_turn_influence_floor keysLeft 0 rfl (by norm_num [maxRotationSpeed])⟩

/-- C6: with both thrust flags set only the forward branch runs
(`speed + acceleration`, then the clamp — no drag, no reverse thrust),
and with both turn flags set only the left branch runs; forward and
left always win ties. -/
theorem claim_C6_tie_break (s r : ℚ) (l rr f b : Bool) :
    stepSpeed ⟨true, true, l, rr⟩ s = clampSpeed (s + acceleration) ∧
    stepSpeed ⟨true, true, l, rr⟩ s = stepSpeed ⟨true, false, l, rr⟩ s ∧
    stepRotation ⟨f, b, true, true⟩ s r =
      clampRot (r + rotationAcceleration * turnInfluence s * turnDirection s) ∧
    stepRotation ⟨f, b, true, true⟩ s r = stepRotation ⟨f, b, true, false⟩ s r :=
  ⟨rfl, rfl, rfl, rfl⟩

/-- C7: in a running Follow→Free transition, on any frame whose
elapsed time since the captured start time is at least `1500` ms the
camera position equals the captured target exactly, the transitioning
flag clears (the mode is Free), and the manual-orbit target is set to
the vessel's current position. -/
theorem claim_C7_transition_completion (now : ℚ) (shipPos fOff fTgt : Vec3)
    (c : CamState) (hw : c.wasFollowMode = false) (ht : c.isTransitioning = true)
    (he : 1500 ≤ now - c.transitionStartTime) :
    (updateCamera false now shipPos fOff fTgt c).cameraPos = c.transitionTargetPos ∧
    (updateCamera false now shipPos fOff fTgt c).isTransitioning = false ∧
    (updateCamera false now shipPos fOff fTgt c).controlsTarget = shipPos := by
  have hprog : min ((now - c.transitionStartTime) / 1500) 1 = 1 :=
    min_eq_right ((le_div_iff₀ (by norm_num)).mpr (by linarith))
  simp [updateCamera, hw, ht, hprog, vlerp_one]

/-- C7 witness: a transition that started at time `0`, evaluated at
time `1500`, lands the camera exactly on the captured target
`(1, 2, 3)` and hands the orbit target the ship position. -/
theorem claim_C7_transition_completion_witness :
    (camT.wasFollowMode = false ∧ camT.isTransitioning = true ∧
      (1500 : ℚ) ≤ 1500 - camT.transitionStartTime) ∧
    ((updateCamera false 1500 (7, 8, 9) (0, 0, 0) (4, 4, 4) camT).cameraPos =
        camT.transitionTargetPos ∧
      (updateCamera false 1500 (7, 8, 9) (0, 0, 0) (4, 4, 4) camT).isTransitioning = false ∧
      (updateCamera false 1500 (7, 8, 9) (0, 0, 0) (4, 4, 4) camT).controlsTarget =
        (7, 8, 9)) :=
  ⟨⟨rfl, rfl, by norm_num [camT]⟩,
    claim_C7_transition_completion 1500 (7, 8, 9) (0, 0, 0) (4, 4, 4) camT rfl rfl
      (by norm_num [camT])⟩

/-- C8: from Follow, switching the mode flag to Free for one frame and
back to Follow on the next (before the 1500 ms transition would
complete) yields the Follow state — controls disabled, transitioning
flag false, the was-in-follow latch true — identical in those mode
observables to never having toggled. -/
theorem claim_C8_mode_toggle_idempotent (t1 t2 : ℚ) (p1 f1 g1 p2 f2 g2 : Vec3)
    (c : CamState) (hfm : c.wasFollowMode = true) (hbefore : t2 - t1 < 1500) :
    ((updateCamera true t2 p2 f2 g2 (updateCamera false t1 p1 f1 g1 c)).wasFollowMode = true ∧
      (updateCamera true t2 p2 f2 g2 (updateCamera false t1 p1 f1 g1 c)).isTransitioning = false ∧
      (updateCamera true t2 p2 f2 g2 (updateCamera false t1 p1 f1 g1 c)).controlsEnabled = false) ∧
    ((updateCamera true t2 p2 f2 g2 (updateCamera false t1 p1 f1 g1 c)).wasFollowMode =
        (updateCamera true t2 p2 f2 g2 (updateCamera true t1 p1 f1 g1 c)).wasFollowMode ∧
      (updateCamera true t2 p2 f2 g2 (updateCamera false t1 p1 f1 g1 c)).isTransitioning =
        (updateCamera true t2 p2 f2 g2 (updateCamera true t1 p1 f1 g1 c)).isTransitioning ∧
      (updateCamera true t2 p2 f2 g2 (updateCamera false t1 p1 f1 g1 c)).controlsEnabled =
        (updateCamera true t2 p2 f2 g2 (updateCamera true t1 p1 f1 g1 c)).controlsEnabled) :=
  ⟨⟨rfl, rfl, rfl⟩, rfl, rfl, rfl⟩

/-- C8 witness: toggling away at time `0` and back at time `100` from
the page-load camera state. -/
theorem claim_C8_mode_toggle_idempotent_witness :
    (cam0.wasFollowMode = true ∧ (100 : ℚ) - 0 < 1500) ∧
    ((updateCamera true 100 (0, 0, 0) (0, 30, 80) (0, 60, 150)
        (updateCamera false 0 (0, 0, 0) (0, 30, 80) (0, 60, 150) cam0)).wasFollowMode = true ∧
      (updateCamera true 100 (0, 0, 0) (0, 30, 80) (0, 60, 150)
        (updateCamera false 0 (0, 0, 0) (0, 30, 80) (0, 60, 150) cam0)).isTransitioning = false ∧
      (updateCamera true 100 (0, 0, 0) (0, 30, 80) (0, 60, 150)
        (updateCamera false 0 (0, 0, 0) (0, 30, 80) (0, 60, 150) cam0)).controlsEnabled = false) :=
  ⟨⟨rfl, by norm_num⟩,
    (claim_C8_mode_toggle_idempotent 0 100 (0, 0, 0) (0, 30, 80) (0, 60, 150)
      (0, 0, 0) (0, 30, 80) (0, 60, 150) cam0 rfl (by norm_num)).1⟩

/-- C9: while the vessel asset has not loaded, the per-frame update
returns the state unchanged in every component. -/
theorem claim_C9_loading_guard (env : FrameEnv) (st : SimState)
    (h : st.shipLoaded = false) : updatePhysics env st = st := by
  simp [updatePhysics, h]

/-- C9 witness: a frame on the not-yet-loaded state is the identity. -/
theorem claim_C9_loading_guard_witness :
    stUnloaded.shipLoaded = false ∧ updatePhysics env0 stUnloaded = stUnloaded :=
  ⟨rfl, claim_C9_loading_guard env0 stUnloaded rfl⟩

/-- C10: on a loaded state, the speed readout written by the frame is
`|speed| * 100` rounded to one decimal, hence nonnegative, and negating
the speed leaves the readout unchanged. -/
theorem claim_C10_speed_readout (env : FrameEnv) (st : SimState)
    (h : st.shipLoaded = true) :
    (updatePhysics env st).speedReadout =
      toFixed 1 (|(updatePhysics env st).speed| * 100) ∧
    0 ≤ (updatePhysics env st).speedReadout ∧
    ∀ s : ℚ, toFixed 1 (|(-s)| * 100) = toFixed 1 (|s| * 100) := by
  have hr : (updatePhysics env st).speedReadout =
      toFixed 1 (|(updatePhysics env st).speed| * 100) := by
    simp [updatePhysics, h]
  refine ⟨hr, ?_, fun s => by rw [abs_neg]⟩
  rw [hr]
  exact toFixed_nonneg 1 _ (mul_nonneg (abs_nonneg _) (by norm_num))

/-- C10 witness: the readout identity on the freshly loaded state. -/
theorem claim_C10_speed_readout_witness :
    st0.shipLoaded = true ∧
    ((updatePhysics env0 st0).speedReadout =
        toFixed 1 (|(updatePhysics env0 st0).speed| * 100) ∧
      0 ≤ (updatePhysics env0 st0).speedReadout ∧
      ∀ s : ℚ, toFixed 1 (|(-s)| * 100) = toFixed 1 (|s| * 100)) :=
  ⟨rfl, claim_C10_speed_readout env0 st0 rfl⟩

end Tanker
